import Mathlib

/-!
# Verification of the AI-Agent-Dashboard enrichment pipeline

Shallow embedding of the row-by-row, two-phase enrichment pipeline of
src/agent.py (search phase, extraction phase, session state, CSV export,
Google-Sheets credential handling), with theorems settling the frozen
claims about it.

External collaborators (the web-search proxy, the language model, the
spreadsheet service) are modelled as oracle functions passed in as
arguments; the embedded definitions translate only the logic of the
repository itself.
-/

namespace AgentDashboard

/-- A search result record as built by WebSearcher.search_web:
title, link and snippet text. -/
structure SearchResultRecord where
  title : String
  link : String
  snippet : String
deriving Repr, DecidableEq

/-- One entry of the search-phase batch: the row entity together with its
(nonempty, in the emitted batch) list of search results. Mirrors the dict
appended at src/agent.py lines 240-243. -/
structure SearchBatchRecord where
  entity : String
  search_results : List SearchResultRecord
deriving Repr, DecidableEq

/-- One entry of the extraction-phase output: the row entity together with
the text extracted by the language model. Mirrors the dict appended at
src/agent.py lines 294-297. -/
structure ExtractionRecord where
  entity : String
  extracted_info : String
deriving Repr, DecidableEq

/-! ## Extraction phase (LLMProcessor.extract_info and the loop at
src/agent.py lines 284-299) -/

/-- The flattened text block built from the search results inside
LLMProcessor.extract_info (src/agent.py lines 113-118): each record is
rendered as Title/Snippet/Link lines with a trailing newline, and the
blocks are joined with newlines. -/
def formatted_results (search_results : List SearchResultRecord) : String :=
  String.intercalate "\n" (search_results.map fun r =>
    "Title: " ++ r.title ++ "\n" ++
    "Snippet: " ++ r.snippet ++ "\n" ++
    "Link: " ++ r.link ++ "\n")

/-- The combined instruction sent to the language model
(src/agent.py line 121): the user template followed by the flattened
search-results block. -/
def buildPrompt (custom_prompt : String) (search_results : List SearchResultRecord) : String :=
  custom_prompt ++ "\n\nSearch Results:\n" ++ formatted_results search_results

/-- The language-model collaborator: given the combined instruction it
either returns the message content (ok) or raises an exception whose
description is the carried string (error). -/
def LLMOracle : Type := String → Except String String

/-- The Python str.strip() call at src/agent.py line 135, modelled at the
character level: remove leading and trailing whitespace characters. -/
def strip (s : String) : String :=
  ⟨(((s.data.dropWhile Char.isWhitespace).reverse).dropWhile Char.isWhitespace).reverse⟩

/-- LLMProcessor.extract_info (src/agent.py lines 110-141). On success the
returned content is stripped; a Python-falsy (empty) stripped string is
replaced by the fixed sentinel. Any exception is caught and converted to
an error string embedding the description. -/
def extract_info (llm : LLMOracle) (entity : String)
    (search_results : List SearchResultRecord) (custom_prompt : String) : String :=
  match llm (buildPrompt custom_prompt search_results) with
  | Except.ok content =>
      let extracted_info := strip content
      if extracted_info = "" then "No relevant information could be extracted."
      else extracted_info
  | Except.error e => "Error: " ++ ("Error with Groq API: " ++ e)

/-- The extraction-phase loop (src/agent.py lines 284-299): one
extract_info call per batch entry, appending one ExtractionRecord per
entry. Returns the record list together with the list of prompts issued
to the language-model collaborator, in order. -/
def runExtraction (llm : LLMOracle) (custom_prompt : String) :
    List SearchBatchRecord → List ExtractionRecord × List String
  | [] => ([], [])
  | r :: rest =>
      let info := extract_info llm r.entity r.search_results custom_prompt
      let tail := runExtraction llm custom_prompt rest
      (⟨r.entity, info⟩ :: tail.1, buildPrompt custom_prompt r.search_results :: tail.2)

/-! ## Search client (WebSearcher.search_web, src/agent.py lines 12-67) -/

/-- One parsed result div before field defaulting: the optional title,
link and snippet elements found by the structural selectors
(src/agent.py lines 37-43). -/
structure RawResult where
  title? : Option String
  link? : Option String
  snippet? : Option String
deriving Repr, DecidableEq

/-- The record WebSearcher.search_web builds from one parsed div, with
the fixed fallback strings for missing elements (src/agent.py
lines 41-43). -/
def rawToRecord (r : RawResult) : SearchResultRecord :=
  { title := r.title?.getD "No title"
    link := r.link?.getD "No link"
    snippet := r.snippet?.getD "No snippet" }

/-- The per-div loop of WebSearcher.search_web (src/agent.py lines 35-55):
records whose link does not start with http are skipped (continue), the
rest are appended in order. -/
def collectResults : List RawResult → List SearchResultRecord
  | [] => []
  | r :: rest =>
      if (rawToRecord r).link.startsWith "http" then
        rawToRecord r :: collectResults rest
      else
        collectResults rest

/-- WebSearcher.search_web on a successfully fetched, parsed response:
collect the link-filtered records and return the first 5
(src/agent.py line 60). Transport or parsing failures return the empty
list (lines 62-67) and are modelled by the caller receiving []. -/
def search_web (raw : List RawResult) : List SearchResultRecord :=
  (collectResults raw).take 5

/-! ## Search phase (the Run Web Search loop, src/agent.py lines 228-247) -/

/-- The web-search collaborator as seen by the search loop: given the
query string it returns the (possibly empty) result list; errors have
already been converted to [] inside search_web. -/
def SearchOracle : Type := String → List SearchResultRecord

/-- The search-phase loop (src/agent.py lines 232-245): for each row
entity, substitute it for the placeholder in the template, call the
search collaborator, and append a batch record only when the result list
is nonempty (Python truthiness at line 239). Returns the batch together
with the list of queries issued, in order. -/
def runSearch (searchWeb : SearchOracle) (template : String) :
    List String → List SearchBatchRecord × List String
  | [] => ([], [])
  | entity :: rest =>
      let query := template.replace "{entity}" entity
      let search_results := searchWeb query
      let tail := runSearch searchWeb template rest
      (if search_results.isEmpty then tail.1
       else ⟨entity, search_results⟩ :: tail.1,
       query :: tail.2)

/-! ## Session state and the two-phase workflow (src/agent.py main,
lines 173-302) -/

/-- The process-wide Streamlit session state holding the two result
collections (src/agent.py lines 177-180): both start as None. -/
structure SessionState where
  current_search_results : Option (List SearchBatchRecord)
  processed_results : Option (List ExtractionRecord)
deriving Repr

/-- The initial session state (src/agent.py lines 177-180): both
collections are None. -/
def initState : SessionState := ⟨none, none⟩

/-- A user-triggered phase run: the Run Web Search button with its
collaborator and inputs, or the Process with LLM button with its
collaborator and instruction template. -/
inductive Event where
  | runWebSearch (searchWeb : SearchOracle) (rows : List String) (template : String)
  | processWithLLM (llm : LLMOracle) (custom_prompt : String)

/-- Whether an event is a search-phase run. -/
def Event.isSearch : Event → Bool
  | .runWebSearch _ _ _ => true
  | .processWithLLM _ _ => false

/-- One step of the dashboard. A search run assigns the complete new
batch to current_search_results (src/agent.py line 247). The LLM run is
gated by the Python truthiness of current_search_results (line 251):
with no batch, or an empty batch, the Process with LLM section is not
rendered and the state is unchanged; otherwise the complete extraction
output is assigned to processed_results (line 301). -/
def step (s : SessionState) : Event → SessionState
  | .runWebSearch searchWeb rows template =>
      { s with current_search_results := some (runSearch searchWeb template rows).1 }
  | .processWithLLM llm custom_prompt =>
      match s.current_search_results with
      | none => s
      | some batch =>
          if batch.isEmpty then s
          else { s with processed_results := some (runExtraction llm custom_prompt batch).1 }

/-- Run a sequence of user-triggered phase events from a state. -/
def run (s : SessionState) : List Event → SessionState
  | [] => s
  | e :: rest => run (step s e) rest

/-- The batch produced by the most recent search event of a trace, given
the batch held before the trace (acc). -/
def lastSearchBatch (acc : Option (List SearchBatchRecord)) :
    List Event → Option (List SearchBatchRecord)
  | [] => acc
  | .runWebSearch searchWeb rows template :: rest =>
      lastSearchBatch (some (runSearch searchWeb template rows).1) rest
  | .processWithLLM _ _ :: rest => lastSearchBatch acc rest

/-! ## Progress reporting (src/agent.py lines 232-234 and 284-286) -/

/-- The sequence of fractions reported to the progress bar by a phase
over n rows: (idx + 1) / n for idx = 0, ..., n - 1, as exact rationals
(both phase loops use the same formula). -/
def progressReports (n : Nat) : List ℚ :=
  (List.range n).map fun idx : Nat => ((idx : ℚ) + 1) / (n : ℚ)

/-! ## Search-result preview (display_search_results, src/agent.py
lines 143-151) and CSV loading (DataLoader.load_csv, lines 70-82) -/

/-- A Python runtime error that escapes a function uncaught. -/
inductive PyError where
  | indexError
  | raised (msg : String)
deriving Repr, DecidableEq

/-- display_search_results (src/agent.py lines 143-151): the body indexes
results[1] four times (the iteration over all results is commented out at
line 146), so a list with fewer than two elements raises IndexError;
otherwise the four rendered lines are produced. -/
def display_search_results (results : List SearchResultRecord) :
    Except PyError (List String) :=
  match results[1]? with
  | none => Except.error PyError.indexError
  | some r =>
      Except.ok
        ["Result 1: " ++ r.title,
         "**Title:** " ++ r.title,
         "**Snippet:** " ++ r.snippet,
         "**Link:** " ++ r.link]

/-- A table of text cells as loaded from a delimited-text file: a header
row followed by data rows. Cells are uninterpreted character sequences. -/
structure Table where
  header : List (List Char)
  rows : List (List (List Char))
deriving Repr, DecidableEq

/-- The outcome of one pandas read_csv attempt as seen by
DataLoader.load_csv: a table, a UnicodeDecodeError, or any other
exception carrying its description. -/
inductive CsvReadOutcome where
  | ok (df : Table)
  | unicodeDecodeError (msg : String)
  | otherError (msg : String)
deriving Repr

/-- DataLoader.load_csv (src/agent.py lines 70-82). The outer try catches
only UnicodeDecodeError; on that it retries with latin1 and the inner
except catches every exception, returning None. Any non-Unicode exception
from the first attempt escapes uncaught. The two arguments are the
outcomes of the UTF-8 attempt and of the latin1 retry. -/
def load_csv (utf8Attempt latin1Attempt : CsvReadOutcome) :
    Except PyError (Option Table) :=
  match utf8Attempt with
  | CsvReadOutcome.ok df => Except.ok (some df)
  | CsvReadOutcome.unicodeDecodeError _ =>
      match latin1Attempt with
      | CsvReadOutcome.ok df => Except.ok (some df)
      | CsvReadOutcome.unicodeDecodeError _ => Except.ok none
      | CsvReadOutcome.otherError _ => Except.ok none
  | CsvReadOutcome.otherError msg => Except.error (PyError.raised msg)

/-! ## Delimited-text export and parse (src/agent.py line 339 and
lines 71-82).

Modelled from the spec: the pandas to_csv / read_csv pair is outside this
repository, so the UTF-8 delimited-text format is modelled at the
character level per the spec (section 6: delimited-text, comma fields,
newline rows, first row as column headers); type inference and quoting
are outside the model, which is why the round-trip hypothesis excludes
every delimiter-breaking character. -/

/-- Encode one row: cells joined by the comma field delimiter. -/
def encodeRow (cells : List (List Char)) : List Char :=
  [','].intercalate cells

/-- Encode a table as delimited text: header line then data lines, joined
by newlines, with the trailing newline to_csv writes after the last
line. -/
def encodeCSV (t : Table) : List Char :=
  ['\n'].intercalate ((t.header :: t.rows).map encodeRow) ++ ['\n']

/-- Split one line into its cells at the comma delimiter. -/
def parseLine (l : List Char) : List (List Char) :=
  l.splitOn ','

/-- Parse delimited text into a table: split into lines at newlines,
ignore the empty fragment after a trailing newline, take the first line
as the header and the rest as data rows; an input with no lines at all is
a failure. -/
def parseTable (s : List Char) : Option Table :=
  let ls := s.splitOn '\n'
  let ls := if ls.getLast? = some [] then ls.dropLast else ls
  match ls with
  | [] => none
  | h :: rest => some ⟨parseLine h, rest.map parseLine⟩

/-! ## Google-Sheets credential handling (DataLoader.load_google_sheet,
src/agent.py lines 84-104, and the Update Google Sheet handler,
lines 348-361) -/

/-- An observable operation performed while handling a spreadsheet
request, in program order. evalPython is the builtin eval applied to
user-supplied text; parseJson is structured JSON parsing (json.loads),
which the code imports but never applies to the credential document. -/
inductive SheetEffect where
  | evalPython (code : String)
  | parseJson (doc : String)
  | validateServiceAccount
  | buildSheetsService
  | readSheetValues (range : String)
  | appendSheetValues (range : String)
deriving Repr, DecidableEq

/-- The operations of DataLoader.load_google_sheet (src/agent.py
lines 87-95) in program order: eval on the raw credential text first
(line 89, evaluated as the argument), then credential construction, then
the service build and the Sheet1 read. -/
def load_google_sheet_effects (credentials_json _sheet_url : String) :
    List SheetEffect :=
  [SheetEffect.evalPython credentials_json,
   SheetEffect.validateServiceAccount,
   SheetEffect.buildSheetsService,
   SheetEffect.readSheetValues "Sheet1"]

/-- The operations of the Update Google Sheet handler (src/agent.py
lines 351-358) in program order: eval on the raw credential text first
(line 351, evaluated as the build argument), then the service build and
the Sheet1 append. -/
def update_google_sheet_effects (credentials_json _sheet_url : String) :
    List SheetEffect :=
  [SheetEffect.evalPython credentials_json,
   SheetEffect.buildSheetsService,
   SheetEffect.appendSheetValues "Sheet1"]

/-! ## Theorems -/

/-- C1: for every batch given to the extraction phase and every
language-model behaviour (including failures), the output record list
has exactly the length of the batch and its entities appear in exactly
the batch order: no entry is ever dropped. -/
theorem extraction_preserves_batch (llm : LLMOracle) (p : String)
    (batch : List SearchBatchRecord) :
    ((runExtraction llm p batch).1).length = batch.length ∧
    ((runExtraction llm p batch).1).map ExtractionRecord.entity
      = batch.map SearchBatchRecord.entity := by
  induction batch with
  | nil => exact ⟨rfl, rfl⟩
  | cons r rest ih =>
      exact ⟨by simp [runExtraction, ih.1], by simp [runExtraction, ih.2]⟩

/-- C2: the entities of the search-phase batch form an order-preserving
subsequence of the input column values, and every emitted record has a
nonempty result list (rows with zero results are skipped). -/
theorem search_batch_subsequence (searchWeb : SearchOracle) (template : String)
    (rows : List String) :
    (((runSearch searchWeb template rows).1).map SearchBatchRecord.entity).Sublist rows ∧
    ∀ r ∈ (runSearch searchWeb template rows).1, r.search_results ≠ [] := by
  induction rows with
  | nil => simp [runSearch]
  | cons e rest ih =>
      by_cases h : (searchWeb (template.replace "{entity}" e)).isEmpty
      · refine ⟨?_, ?_⟩
        · simpa [runSearch, h] using ih.1.cons e
        · intro r hr
          rw [runSearch] at hr
          simp only [h, if_pos] at hr
          exact ih.2 r hr
      · refine ⟨?_, ?_⟩
        · simpa [runSearch, h] using ih.1.cons₂ e
        · intro r hr
          rw [runSearch] at hr
          simp only [h, if_neg, Bool.false_eq_true, not_false_eq_true,
            List.mem_cons] at hr
          rcases hr with hr | hr
          · subst hr
            simpa [List.isEmpty_iff] using h
          · exact ih.2 r hr

/-- Concrete run of the C2 theorem: oracle returning one result for the
first row and none for the second. -/
theorem search_batch_subsequence_witness :
    (((runSearch
        (fun q => if q = "Q a" then [⟨"t", "http://x", "s"⟩] else [])
        "Q {entity}" ["a", "b"]).1).map SearchBatchRecord.entity).Sublist ["a", "b"] ∧
    ∀ r ∈ (runSearch
        (fun q => if q = "Q a" then [⟨"t", "http://x", "s"⟩] else [])
        "Q {entity}" ["a", "b"]).1, r.search_results ≠ [] :=
  search_batch_subsequence _ _ _

/-- The per-div collection loop only keeps records whose link starts
with http, in the collaborator order. -/
theorem collectResults_sublist (raw : List RawResult) :
    (collectResults raw).Sublist (raw.map rawToRecord) := by
  induction raw with
  | nil => simp [collectResults]
  | cons r rest ih =>
      by_cases h : (rawToRecord r).link.startsWith "http"
      · simpa [collectResults, h] using ih.cons₂ (rawToRecord r)
      · simpa [collectResults, h] using ih.cons (rawToRecord r)

/-- Every record kept by the collection loop has a link starting with
http. -/
theorem mem_collectResults (r : SearchResultRecord) (raw : List RawResult)
    (hr : r ∈ collectResults raw) : r.link.startsWith "http" = true := by
  induction raw with
  | nil => simp [collectResults] at hr
  | cons a rest ih =>
      by_cases h : (rawToRecord a).link.startsWith "http"
      · rw [collectResults, if_pos h] at hr
        rcases List.mem_cons.mp hr with hr | hr
        · subst hr; exact h
        · exact ih hr
      · rw [collectResults, if_neg h] at hr
        exact ih hr

/-- C5: search_web discards every record whose link does not start with
an HTTP scheme, keeps at most 5 records, and keeps them in the order
returned by the search collaborator. -/
theorem search_web_filter_cap_order (raw : List RawResult) :
    (search_web raw).length ≤ 5 ∧
    (∀ r ∈ search_web raw, r.link.startsWith "http" = true) ∧
    (search_web raw).Sublist (raw.map rawToRecord) := by
  refine ⟨List.length_take_le 5 _, ?_, ?_⟩
  · intro r hr
    exact mem_collectResults r raw (List.take_subset 5 _ hr)
  · exact (List.take_sublist 5 _).trans (collectResults_sublist raw)

/-- Concrete run of the C5 theorem: seven parsed divs, two with non-http
links. -/
theorem search_web_filter_cap_order_witness :
    (search_web [⟨some "a", some "http://a", some "s"⟩,
                 ⟨some "b", some "ftp://b", some "s"⟩,
                 ⟨some "c", none, some "s"⟩,
                 ⟨some "d", some "https://d", some "s"⟩,
                 ⟨some "e", some "http://e", some "s"⟩,
                 ⟨some "f", some "http://f", some "s"⟩,
                 ⟨some "g", some "http://g", some "s"⟩]).length ≤ 5 ∧
    (∀ r ∈ search_web [⟨some "a", some "http://a", some "s"⟩,
                 ⟨some "b", some "ftp://b", some "s"⟩,
                 ⟨some "c", none, some "s"⟩,
                 ⟨some "d", some "https://d", some "s"⟩,
                 ⟨some "e", some "http://e", some "s"⟩,
                 ⟨some "f", some "http://f", some "s"⟩,
                 ⟨some "g", some "http://g", some "s"⟩],
        r.link.startsWith "http" = true) ∧
    (search_web [⟨some "a", some "http://a", some "s"⟩,
                 ⟨some "b", some "ftp://b", some "s"⟩,
                 ⟨some "c", none, some "s"⟩,
                 ⟨some "d", some "https://d", some "s"⟩,
                 ⟨some "e", some "http://e", some "s"⟩,
                 ⟨some "f", some "http://f", some "s"⟩,
                 ⟨some "g", some "http://g", some "s"⟩]).Sublist
      ([⟨some "a", some "http://a", some "s"⟩,
        ⟨some "b", some "ftp://b", some "s"⟩,
        ⟨some "c", none, some "s"⟩,
        ⟨some "d", some "https://d", some "s"⟩,
        ⟨some "e", some "http://e", some "s"⟩,
        ⟨some "f", some "http://f", some "s"⟩,
        ⟨some "g", some "http://g", some "s"⟩].map rawToRecord) :=
  search_web_filter_cap_order _

/-- C8: on a zero-row input both phases produce empty outputs and issue
no query to the search collaborator and no prompt to the language
model. -/
theorem zero_rows_empty_no_calls (searchWeb : SearchOracle) (template : String)
    (llm : LLMOracle) (custom_prompt : String) :
    runSearch searchWeb template [] = ([], []) ∧
    runExtraction llm custom_prompt [] = ([], []) :=
  ⟨rfl, rfl⟩

/-- C3 (code bug): the claim that displaying a search-result preview and
loading a CSV never raise an uncaught exception fails on the code.
display_search_results indexes results[1], so a preview of a single
search result raises IndexError; load_csv catches only
UnicodeDecodeError, so any other read_csv exception (for example the
empty-file parse error) escapes uncaught. -/
theorem preview_and_csv_load_raise :
    display_search_results [⟨"Acme Corp - Home", "http://acme.example", "snippet"⟩]
      = Except.error PyError.indexError ∧
    load_csv (CsvReadOutcome.otherError "EmptyDataError: No columns to parse from file")
        (CsvReadOutcome.ok ⟨[], []⟩)
      = Except.error (PyError.raised "EmptyDataError: No columns to parse from file") :=
  ⟨rfl, rfl⟩

/-- C6 counterexample: on a success whose content is whitespace, the
emitted text is the capitalized sentinel with a trailing period, not the
lowercase sentinel the claim quotes. -/
theorem sentinel_text_counterexample :
    extract_info (fun _ => Except.ok "   ") "Acme Corp" [] "Summarize"
      = "No relevant information could be extracted." ∧
    "No relevant information could be extracted."
      ≠ "no relevant information could be extracted" :=
  ⟨by decide, by decide⟩

/-- C6 (amended): on success the returned text is trimmed; if empty
after trimming it is replaced by the fixed sentinel
"No relevant information could be extracted." (capitalized, with a
trailing period); on collaborator error the emitted text embeds the
error description and the remaining batch entries are still
processed. -/
theorem extract_info_contract (llm : LLMOracle) (entity custom_prompt : String)
    (search_results : List SearchResultRecord) :
    (∀ s, llm (buildPrompt custom_prompt search_results) = Except.ok s → strip s ≠ "" →
        extract_info llm entity search_results custom_prompt = strip s) ∧
    (∀ s, llm (buildPrompt custom_prompt search_results) = Except.ok s → strip s = "" →
        extract_info llm entity search_results custom_prompt
          = "No relevant information could be extracted.") ∧
    (∀ e, llm (buildPrompt custom_prompt search_results) = Except.error e →
        extract_info llm entity search_results custom_prompt
          = "Error: " ++ ("Error with Groq API: " ++ e)) ∧
    (∀ r rest, ((runExtraction llm custom_prompt (r :: rest)).1).tail
        = (runExtraction llm custom_prompt rest).1) := by
  refine ⟨?_, ?_, ?_, ?_⟩
  · intro s hs hne
    simp [extract_info, hs, hne]
  · intro s hs he
    simp [extract_info, hs, he]
  · intro e he
    simp [extract_info, he]
  · intro r rest
    rfl

/-- Concrete runs of the C6 amended theorem: a success with surrounding
whitespace, a whitespace-only success, and a collaborator error. -/
theorem extract_info_contract_witness :
    extract_info (fun _ => Except.ok " info ") "A" [] "p" = "info" ∧
    extract_info (fun _ => Except.ok " ") "A" [] "p"
      = "No relevant information could be extracted." ∧
    extract_info (fun _ => Except.error "boom") "A" [] "p"
      = "Error: " ++ ("Error with Groq API: " ++ "boom") := by
  refine ⟨?_, ?_, ?_⟩
  · rw [(extract_info_contract (fun _ => Except.ok " info ") "A" "p" []).1 " info " rfl
      (by decide)]
    decide
  · exact (extract_info_contract (fun _ => Except.ok " ") "A" "p" []).2.1 " " rfl
      (by decide)
  · exact (extract_info_contract (fun _ => Except.error "boom") "A" "p" []).2.2.1
      "boom" rfl

/-- C7: for a nonempty input, one progress fraction is reported per row,
the reported fractions are strictly monotonically increasing, all above
0, and the final report is exactly 1. -/
theorem progress_strictly_increasing (n : Nat) (h : 0 < n) :
    (progressReports n).length = n ∧
    (progressReports n).Pairwise (· < ·) ∧
    (∀ q ∈ progressReports n, 0 < q) ∧
    (progressReports n).getLast? = some 1 := by
  have hn : (0 : ℚ) < (n : ℚ) := by exact_mod_cast h
  refine ⟨by simp [progressReports], ?_, ?_, ?_⟩
  · refine List.Pairwise.map _ ?_ (List.pairwise_lt_range n)
    intro a b hab
    have hab2 : ((a : ℚ) + 1) < ((b : ℚ) + 1) := by
      have : (a : ℚ) < (b : ℚ) := by exact_mod_cast hab
      linarith
    exact div_lt_div_of_pos_right hab2 hn
  · intro q hq
    rw [progressReports, List.mem_map] at hq
    obtain ⟨idx, _, rfl⟩ := hq
    have hnum : (0 : ℚ) < (idx : ℚ) + 1 := by positivity
    exact div_pos hnum hn
  · obtain ⟨m, rfl⟩ := Nat.exists_eq_succ_of_ne_zero h.ne'
    rw [progressReports, List.range_succ, List.map_append, List.map_cons,
      List.map_nil, List.getLast?_concat]
    have hm : ((m : ℚ) + 1) ≠ 0 := by positivity
    congr 1
    push_cast
    field_simp

/-- Concrete run of the C7 theorem over three rows. -/
theorem progress_strictly_increasing_witness :
    (0 : Nat) < 3 ∧
    ((progressReports 3).length = 3 ∧
     (progressReports 3).Pairwise (· < ·) ∧
     (∀ q ∈ progressReports 3, 0 < q) ∧
     (progressReports 3).getLast? = some 1) :=
  ⟨by decide, progress_strictly_increasing 3 (by decide)⟩

/-- An LLM step never changes the held search batch. -/
theorem step_processWithLLM_current (s : SessionState) (llm : LLMOracle)
    (custom_prompt : String) :
    (step s (Event.processWithLLM llm custom_prompt)).current_search_results
      = s.current_search_results := by
  cases h : s.current_search_results with
  | none => simp [step, h]
  | some batch => by_cases hb : batch.isEmpty <;> simp [step, h, hb]

/-- With no batch held, an LLM step leaves the session unchanged. -/
theorem step_processWithLLM_noBatch (s : SessionState) (llm : LLMOracle)
    (custom_prompt : String) (h : s.current_search_results = none) :
    step s (Event.processWithLLM llm custom_prompt) = s := by
  rw [step, h]

/-- After any event trace, the held search batch is exactly the output
of the most recent search run (or the previously held batch when the
trace contains no search run). -/
theorem run_current_eq_lastSearchBatch (events : List Event) (s : SessionState) :
    (run s events).current_search_results
      = lastSearchBatch s.current_search_results events := by
  induction events generalizing s with
  | nil => rfl
  | cons e rest ih =>
      cases e with
      | runWebSearch searchWeb rows template =>
          rw [run, lastSearchBatch, ih]
          simp [step]
      | processWithLLM llm custom_prompt =>
          rw [run, lastSearchBatch, ih, step_processWithLLM_current]

/-- With no batch held, a trace with no search run leaves the session
unchanged. -/
theorem run_no_search_unchanged (events : List Event) (s : SessionState)
    (hcur : s.current_search_results = none)
    (hev : ∀ e ∈ events, e.isSearch = false) :
    run s events = s := by
  induction events with
  | nil => rfl
  | cons e rest ih =>
      cases e with
      | runWebSearch searchWeb rows template =>
          exact absurd (hev _ (List.mem_cons_self _ _)) (by simp [Event.isSearch])
      | processWithLLM llm custom_prompt =>
          rw [run, step_processWithLLM_noBatch s llm custom_prompt hcur]
          exact ih fun e he => hev e (List.mem_cons_of_mem _ he)

/-- C4: extraction never starts before a search batch exists (a trace
with no search run never produces extraction results), extraction only
ever reads the batch of the most recent search run, the extraction
output replaces processed_results wholesale as the complete runExtraction
output, and a search run installs its complete batch regardless of the
previously held state (no merging with old state). -/
theorem two_phase_session_contract (events : List Event) :
    ((∀ e ∈ events, e.isSearch = false) →
        (run initState events).processed_results = none) ∧
    (run initState events).current_search_results = lastSearchBatch none events ∧
    (∀ s llm custom_prompt batch, s.current_search_results = some batch →
        batch.isEmpty = false →
        (step s (Event.processWithLLM llm custom_prompt)).processed_results
          = some (runExtraction llm custom_prompt batch).1) ∧
    (∀ s sB searchWeb rows template,
        (step s (Event.runWebSearch searchWeb rows template)).current_search_results
          = (step sB (Event.runWebSearch searchWeb rows template)).current_search_results) := by
  refine ⟨?_, ?_, ?_, ?_⟩
  · intro hev
    rw [run_no_search_unchanged events initState rfl hev]
    rfl
  · exact run_current_eq_lastSearchBatch events initState
  · intro s llm custom_prompt batch hcur hb
    simp [step, hcur, hb]
  · intro s sB searchWeb rows template
    rfl

/-- Concrete run of the C4 theorem: an LLM-only trace yields no
extraction results, and an LLM step on a held one-entry batch installs
exactly the extraction output for that batch. -/
theorem two_phase_session_contract_witness :
    (run initState [Event.processWithLLM (fun _ => Except.ok "x") "p"]).processed_results
      = none ∧
    (step ⟨some [⟨"Acme Corp", [⟨"t", "http://x", "s"⟩]⟩], none⟩
        (Event.processWithLLM (fun _ => Except.ok "x") "p")).processed_results
      = some (runExtraction (fun _ => Except.ok "x") "p"
          [⟨"Acme Corp", [⟨"t", "http://x", "s"⟩]⟩]).1 :=
  ⟨(two_phase_session_contract [Event.processWithLLM (fun _ => Except.ok "x") "p"]).1
      (by intro e he; rw [List.mem_singleton] at he; subst he; rfl),
   (two_phase_session_contract []).2.2.1
      ⟨some [⟨"Acme Corp", [⟨"t", "http://x", "s"⟩]⟩], none⟩
      (fun _ => Except.ok "x") "p" [⟨"Acme Corp", [⟨"t", "http://x", "s"⟩]⟩] rfl rfl⟩

/-- Unfolding intercalate over a two-or-more element list. -/
theorem intercalate_cons_cons {α : Type} (sep a b : List α) (l : List (List α)) :
    sep.intercalate (a :: b :: l) = a ++ sep ++ sep.intercalate (b :: l) := by
  simp [List.intercalate, List.intersperse]

/-- Intercalate over a one-element list. -/
theorem intercalate_single {α : Type} (sep a : List α) :
    sep.intercalate [a] = a := by
  simp [List.intercalate]

/-- Appending an empty last chunk appends one separator. -/
theorem intercalate_append_nil {α : Type} (sep : List α) (xs : List (List α))
    (hx : xs ≠ []) :
    sep.intercalate (xs ++ [[]]) = sep.intercalate xs ++ sep := by
  induction xs with
  | nil => exact absurd rfl hx
  | cons a rest ih =>
      cases rest with
      | nil => simp [intercalate_cons_cons, intercalate_single]
      | cons b r2 =>
          have h2 : ((a :: b :: r2) ++ [[]] : List (List α))
              = a :: ((b :: r2) ++ [[]]) := rfl
          have h3 : ((b :: r2) ++ [[]] : List (List α))
              = b :: (r2 ++ [[]]) := rfl
          rw [h2, h3, intercalate_cons_cons, ← h3, ih (by simp),
            intercalate_cons_cons]
          simp [List.append_assoc]

/-- An element distinct from the separator and absent from every chunk is
absent from the intercalation. -/
theorem not_mem_intercalate_single {α : Type} (x sep : α) (hsep : x ≠ sep)
    (ls : List (List α)) (h : ∀ l ∈ ls, x ∉ l) :
    x ∉ [sep].intercalate ls := by
  induction ls with
  | nil => simp [List.intercalate]
  | cons a rest ih =>
      cases rest with
      | nil =>
          rw [intercalate_single]
          exact h a (List.mem_cons_self _ _)
      | cons b r2 =>
          rw [intercalate_cons_cons]
          intro hx
          rcases List.mem_append.mp hx with h1 | h2
          · rcases List.mem_append.mp h1 with ha | hs
            · exact h a (List.mem_cons_self _ _) ha
            · rw [List.mem_singleton] at hs
              exact hsep hs
          · exact ih (fun l hl => h l (List.mem_cons_of_mem _ hl)) h2

/-- Splitting an encoded row at the comma recovers its cells. -/
theorem parseLine_encodeRow (cells : List (List Char)) (hne : cells ≠ [])
    (hc : ∀ cell ∈ cells, ',' ∉ cell) :
    parseLine (encodeRow cells) = cells :=
  List.splitOn_intercalate cells ',' hc hne

/-- C9: for a table whose cells contain no delimiter-breaking character
(field comma, newline, carriage return, quote) and whose header and rows
are nonempty, parsing the delimited-text encoding yields the table back
unchanged. -/
theorem csv_round_trip (t : Table)
    (hh : t.header ≠ [])
    (hr : ∀ row ∈ t.rows, row ≠ [])
    (hhc : ∀ cell ∈ t.header, ∀ c ∈ cell, c ≠ ',' ∧ c ≠ '\n' ∧ c ≠ '\r' ∧ c ≠ '\x22')
    (hrc : ∀ row ∈ t.rows, ∀ cell ∈ row, ∀ c ∈ cell,
        c ≠ ',' ∧ c ≠ '\n' ∧ c ≠ '\r' ∧ c ≠ '\x22') :
    parseTable (encodeCSV t) = some t := by
  have hlines_ne : (t.header :: t.rows).map encodeRow ≠ [] := by simp
  have hnl_row : ∀ cells, cells ∈ t.header :: t.rows → '\n' ∉ encodeRow cells := by
    intro cells hcells
    refine not_mem_intercalate_single '\n' ',' (by decide) cells ?_
    intro cell hcell hmem
    rcases List.mem_cons.mp hcells with rfl | hrow
    · exact (hhc cell hcell '\n' hmem).2.1 rfl
    · exact (hrc _ hrow cell hcell '\n' hmem).2.1 rfl
  have hnl : ∀ l ∈ (t.header :: t.rows).map encodeRow ++ [[]], '\n' ∉ l := by
    intro l hl
    rcases List.mem_append.mp hl with hl | hl
    · obtain ⟨cells, hcells, rfl⟩ := List.mem_map.mp hl
      exact hnl_row cells hcells
    · rw [List.mem_singleton] at hl
      subst hl
      simp
  have henc : encodeCSV t
      = ['\n'].intercalate ((t.header :: t.rows).map encodeRow ++ [[]]) := by
    rw [encodeCSV, intercalate_append_nil ['\n'] _ hlines_ne]
  have hsplit : (encodeCSV t).splitOn '\n'
      = (t.header :: t.rows).map encodeRow ++ [[]] := by
    rw [henc]
    exact List.splitOn_intercalate _ '\n' hnl (by simp)
  rw [parseTable, hsplit]
  simp only [List.getLast?_concat, if_pos, List.dropLast_concat, List.map_cons]
  rw [parseLine_encodeRow t.header hh (fun cell hcell hmem =>
    (hhc cell hcell ',' hmem).1 rfl)]
  have hrows : (t.rows.map encodeRow).map parseLine = t.rows := by
    rw [List.map_map]
    refine List.map_congr_left ?_ |>.trans (List.map_id _)
    intro row hrow
    exact parseLine_encodeRow row (hr row hrow) (fun cell hcell hmem =>
      (hrc row hrow cell hcell ',' hmem).1 rfl)
  rw [hrows]

/-- Concrete run of the C9 theorem: a two-column table with one data
row. -/
theorem csv_round_trip_witness :
    parseTable (encodeCSV ⟨[['i', 'd'], ['n', 'a', 'm', 'e']],
        [[['1'], ['A', 'c', 'm', 'e']]]⟩)
      = some ⟨[['i', 'd'], ['n', 'a', 'm', 'e']], [[['1'], ['A', 'c', 'm', 'e']]]⟩ :=
  csv_round_trip _ (by decide) (by decide) (by decide) (by decide)

/-- C10: both Google-Sheets handlers apply the builtin eval to the raw
user-supplied credential document as their very first operation, before
any credential validation, and neither ever parses it as JSON data; the
evaluated text is the credential input verbatim, so any expression the
user supplies reaches eval. -/
theorem credential_eval_before_validation (cred url : String) :
    (load_google_sheet_effects cred url).head?
      = some (SheetEffect.evalPython cred) ∧
    (update_google_sheet_effects cred url).head?
      = some (SheetEffect.evalPython cred) ∧
    SheetEffect.parseJson cred ∉ load_google_sheet_effects cred url ∧
    SheetEffect.parseJson cred ∉ update_google_sheet_effects cred url := by
  refine ⟨rfl, rfl, ?_, ?_⟩ <;>
    simp [load_google_sheet_effects, update_google_sheet_effects]

/-- Concrete run of the C10 theorem: an arbitrary Python expression as
the credential document. -/
theorem credential_eval_before_validation_witness :
    (load_google_sheet_effects "__import__(my_payload)"
        "https://docs.google.com/spreadsheets/d/SHEETID/edit").head?
      = some (SheetEffect.evalPython "__import__(my_payload)") ∧
    (update_google_sheet_effects "__import__(my_payload)"
        "https://docs.google.com/spreadsheets/d/SHEETID/edit").head?
      = some (SheetEffect.evalPython "__import__(my_payload)") ∧
    SheetEffect.parseJson "__import__(my_payload)"
      ∉ load_google_sheet_effects "__import__(my_payload)"
          "https://docs.google.com/spreadsheets/d/SHEETID/edit" ∧
    SheetEffect.parseJson "__import__(my_payload)"
      ∉ update_google_sheet_effects "__import__(my_payload)"
          "https://docs.google.com/spreadsheets/d/SHEETID/edit" :=
  credential_eval_before_validation _ _

end AgentDashboard
